import Mathlib

/-!
# mediasoup-go: `PipeTransport` (src/mediasoup/pipe_transport.go)

A shallow embedding of `PipeTransport.Tuple`, `PipeTransport.Connect` and
`PipeTransport.Consume`.

* Go pointers that may be nil are `Option`; calling an accessor that reads a
  field through a nil pointer is a run-time panic, kept as an explicit outcome.
* The transport is passed and returned explicitly (state passing).
* Statements with an effect outside the transport value (a Channel request,
  an observer notification) and the registry/subscription statements are
  recorded, in program order, in a list of `Effect`s returned by the call.
* `uuid.NewV4().String()` is an input of `Consume` (the identifier the
  generator yields for this call).
* Helpers of the package that are not part of the file (`isObject`,
  `GetPipeConsumerRtpParameters`) are parameters, collected in `Collaborators`.
-/

namespace Mediasoup

/-! ## Data model -/

/-- Modelled from the spec: the type `RtpCodecParameters` is declared outside
pipe_transport.go; a codec entry of an RTP parameter set. -/
structure RtpCodecParameters where
  MimeType : String
  PayloadType : Nat
  deriving DecidableEq, Repr

/-- Modelled from the spec: the type `RtpEncoding` is declared outside
pipe_transport.go; an encoding entry of an RTP parameter set. -/
structure RtpEncoding where
  Ssrc : Nat
  deriving DecidableEq, Repr

/-- Modelled from the spec: the type `RtpParameters` is declared outside
pipe_transport.go; the source reads its field `Encodings` (line 102). -/
structure RtpParameters where
  Codecs : List RtpCodecParameters
  Encodings : List RtpEncoding
  deriving DecidableEq, Repr

/-- Modelled from the spec: the type `TransportTuple` is declared outside
pipe_transport.go; the cached network endpoint of a pipe transport (the spec
writes its value as an ip and a port). -/
structure TransportTuple where
  Ip : String
  Port : Nat
  deriving DecidableEq, Repr

/-- Modelled from the spec: the type `PipeTransportData` is declared outside
pipe_transport.go; the source reads its field `Tuple` (line 31). -/
structure PipeTransportData where
  Tuple : TransportTuple
  deriving DecidableEq, Repr

/-- Modelled from the spec: the type `transportConnectParams` is declared
outside pipe_transport.go; the remote endpoint handed to `Connect`. -/
structure transportConnectParams where
  Ip : String
  Port : Nat
  deriving DecidableEq, Repr

/-- Modelled from the spec: the type of `t.internal` is declared outside
pipe_transport.go; the internal identifiers
(routerId, transportId, producerId, consumerId). The source writes its fields
`ConsumerId` and `ProducerId` (lines 95 and 96). -/
structure internalData where
  RouterId : String
  TransportId : String
  ProducerId : String
  ConsumerId : String
  deriving DecidableEq, Repr

/-- Go values of type `interface{}` that occur in this file: the `appData` of a
caller and the payload of a Channel request. `H` is Go's
`map[string]interface{}`, written as its list of entries. -/
inductive Any where
  | nil
  | bool (b : Bool)
  | int (n : Int)
  | string (s : String)
  | rtpParameters (p : RtpParameters)
  | encodings (es : List RtpEncoding)
  | connectParams (p : transportConnectParams)
  | H (entries : List (String × Any))

/-- Go's `H`, a `map[string]interface{}` literal listed by its entries. -/
abbrev H := List (String × Any)

/-- The value stored under `key` in an `H` literal. -/
def H.get (h : H) (key : String) : Option Any :=
  (h.find? (fun kv => kv.1 == key)).map Prod.snd

/-- Go `error` values seen by this file. -/
inductive GoError where
  /-- The value built by `NewTypeError(message)`. -/
  | typeError (message : String)
  /-- The value built by `fmt.Errorf(...)`. -/
  | errorf (message : String)
  /-- An error carried by a Channel response (worker rejection, timeout). -/
  | channel (name : String) (message : String)
  deriving DecidableEq, Repr

/-- The constructor `NewTypeError` of the package. -/
def NewTypeError (message : String) : GoError :=
  GoError.typeError message

/-- Modelled from the spec: the decoded content of a successful Channel
response is declared outside pipe_transport.go. It lists the fields the two
decoding targets of this file read: `tuple` (for `t.data`) and `paused`,
`producerPaused` (for `status`); a field the worker did not send is `none`. -/
structure ResponseData where
  tuple : Option TransportTuple := none
  paused : Option Bool := none
  producerPaused : Option Bool := none
  deriving DecidableEq, Repr

/-- Modelled from the spec: the result type of `Channel.Request` is declared
outside pipe_transport.go: "returns a structured response or a remote
error". -/
inductive Response where
  | failure (err : GoError)
  | success (data : ResponseData)
  deriving DecidableEq, Repr

/-- Modelled from the spec: `Response.Unmarshal` is declared outside
pipe_transport.go. Decoding into a `PipeTransportData` (line 47): a failed
response yields its error and leaves the target as it was; a successful one
overwrites the fields the response carries and yields no error. -/
def Response.UnmarshalData (resp : Response) (target : PipeTransportData) :
    PipeTransportData × Option GoError :=
  match resp with
  | Response.failure err => (target, some err)
  | Response.success d =>
    (match d.tuple with
      | some v => { target with Tuple := v }
      | none => target, none)

/-- The anonymous struct `status` of `Consume` (lines 107 to 110). -/
structure consumeStatus where
  Paused : Bool
  ProducerPaused : Bool
  deriving DecidableEq, Repr

/-- Modelled from the spec: `Response.Unmarshal` is declared outside
pipe_transport.go. Decoding into the `status` struct (line 111): a failed
response yields its error and leaves the target as it was; a successful one
overwrites the flags the response carries and yields no error. -/
def Response.UnmarshalStatus (resp : Response) (target : consumeStatus) :
    consumeStatus × Option GoError :=
  match resp with
  | Response.failure err => (target, some err)
  | Response.success d =>
    ({ Paused := d.paused.getD target.Paused,
       ProducerPaused := d.producerPaused.getD target.ProducerPaused }, none)

/-- Modelled from the spec: the Channel is declared outside pipe_transport.go.
A fake Channel: `Request(method, internal, data)` answers with a response that
is a function of the request. That a request was issued is recorded by the
caller as an `Effect`. -/
structure Channel where
  Request : String → internalData → Any → Response

/-- Modelled from the spec: the type `Producer` is declared outside
pipe_transport.go; it exposes `Kind()` and `ConsumableRtpParameters()`. -/
structure Producer where
  kind : String
  consumableRtpParameters : RtpParameters
  deriving DecidableEq, Repr

/-- The outcome of reading through a Go pointer: a value, or the run-time
panic of a nil dereference. -/
abbrev Deref (α : Type) := Except String α

/-- Modelled from the spec: `(*Producer).Kind` is declared outside
pipe_transport.go; it reads the producer's kind through the receiver, so a
nil receiver is a nil dereference. -/
def Producer.Kind : Option Producer → Deref String
  | some p => Except.ok p.kind
  | none => Except.error "invalid memory address or nil pointer dereference"

/-- Modelled from the spec: `(*Producer).ConsumableRtpParameters` is declared
outside pipe_transport.go; it reads the capability descriptor through the
receiver, so a nil receiver is a nil dereference. -/
def Producer.ConsumableRtpParameters : Option Producer → Deref RtpParameters
  | some p => Except.ok p.consumableRtpParameters
  | none => Except.error "invalid memory address or nil pointer dereference"

/-- The struct `consumerData` built at lines 115 to 119. -/
structure consumerData where
  Kind : String
  RtpParameters : RtpParameters
  Type_ : String
  deriving DecidableEq, Repr

/-- The closures handed to `consumer.On` (lines 132 to 137), defunctionalised:
the only listener body of this file is `delete(t.consumers, consumer.Id())`. -/
inductive Handler where
  | deleteConsumer (id : String)
  deriving DecidableEq, Repr

/-- Modelled from the spec: the type `Consumer` is declared outside
pipe_transport.go. It keeps the arguments of `NewConsumer` and the listeners
subscribed on its event hub, in subscription order. -/
structure Consumer where
  internal : internalData
  data : consumerData
  channel : Channel
  appData : Any
  paused : Bool
  producerPaused : Bool
  score : Option Nat
  listeners : List (String × Handler)

/-- Modelled from the spec: `NewConsumer` is declared outside
pipe_transport.go; it stores its seven arguments; no listener is subscribed
yet. -/
def NewConsumer (internal : internalData) (data : consumerData) (channel : Channel)
    (appData : Any) (paused producerPaused : Bool) (score : Option Nat) : Consumer :=
  { internal := internal, data := data, channel := channel, appData := appData,
    paused := paused, producerPaused := producerPaused, score := score,
    listeners := [] }

/-- Modelled from the spec: the accessor `Consumer.Id`. -/
def Consumer.Id (c : Consumer) : String := c.internal.ConsumerId

/-- Modelled from the spec: the accessor `Consumer.Kind`. -/
def Consumer.Kind (c : Consumer) : String := c.data.Kind

/-- Modelled from the spec: the accessor `Consumer.Type`. -/
def Consumer.Type_ (c : Consumer) : String := c.data.Type_

/-- Modelled from the spec: the accessor `Consumer.RtpParameters`. -/
def Consumer.RtpParameters (c : Consumer) : RtpParameters := c.data.RtpParameters

/-- Modelled from the spec: the accessor `Consumer.Paused`. -/
def Consumer.Paused (c : Consumer) : Bool := c.paused

/-- Modelled from the spec: the accessor `Consumer.ProducerPaused`. -/
def Consumer.ProducerPaused (c : Consumer) : Bool := c.producerPaused

/-- Modelled from the spec: `Consumer.On(event, listener)` of the event hub,
declared outside pipe_transport.go: the listener is added after the ones
already subscribed. -/
def Consumer.On (c : Consumer) (event : String) (listener : Handler) : Consumer :=
  { c with listeners := c.listeners ++ [(event, listener)] }

/-- A Go `map[string]*T`: the entry stored under each key, if any. -/
abbrev Registry (α : Type) := String → Option α

/-- The statement `m[key] = value`. -/
def Registry.store {α : Type} (m : Registry α) (key : String) (value : α) : Registry α :=
  fun k => if k = key then some value else m k

/-- The statement `delete(m, key)`; deleting an absent key changes nothing. -/
def Registry.delete {α : Type} (m : Registry α) (key : String) : Registry α :=
  fun k => if k = key then none else m k

/-- The struct `PipeTransport` (lines 12 to 16) with the fields of the embedded
`*baseTransport` that this file uses: `internal`, `channel`, `consumers`, and
the producer registry behind `getProducerById`. The logger is left out and
the observer is represented by the `safeEmit` effects. -/
structure PipeTransport where
  internal : internalData
  channel : Channel
  producers : Registry Producer
  consumers : Registry Consumer
  data : PipeTransportData

/-- Modelled from the spec: `getProducerById` is declared outside
pipe_transport.go: "resolve producerId against the transport's Producer
registry"; nil when the id is not registered. -/
def PipeTransport.getProducerById (t : PipeTransport) (producerId : String) :
    Option Producer :=
  t.producers producerId

/-- The struct `transportConsumeParams`, declared outside pipe_transport.go;
the source reads `ProducerId` and `AppData` (line 76). -/
structure transportConsumeParams where
  ProducerId : String
  AppData : Any

/-- Helpers of the package that pipe_transport.go calls and that are declared
elsewhere, taken as parameters. -/
structure Collaborators where
  isObject : Any → Bool
  GetPipeConsumerRtpParameters : RtpParameters → RtpParameters

/-- The effectful statements of `Connect` and `Consume`, in program order. -/
inductive Effect where
  /-- A call `t.channel.Request(method, internal, data)`. -/
  | request (method : String) (internal : internalData) (data : Any)
  /-- The statement `t.consumers[id] = consumer` (line 131). -/
  | store (id : String)
  /-- A call `consumer.On(event, ...)` on the consumer `id` (lines 132, 135). -/
  | on (id : String) (event : String)
  /-- A call `t.observer.SafeEmit(event, consumer)` (line 140). -/
  | safeEmit (event : String) (consumer : Consumer)

/-- The Channel requests among the effects, in order. -/
def requests : List Effect → List (String × internalData × Any)
  | [] => []
  | Effect.request m i d :: rest => (m, i, d) :: requests rest
  | _ :: rest => requests rest

/-- The observer notifications among the effects, in order. -/
def emitted : List Effect → List (String × Consumer)
  | [] => []
  | Effect.safeEmit e c :: rest => (e, c) :: emitted rest
  | _ :: rest => emitted rest

/-- The subscriptions among the effects, in order. -/
def subscribed : List Effect → List (String × String)
  | [] => []
  | Effect.on i e :: rest => (i, e) :: subscribed rest
  | _ :: rest => subscribed rest

/-! ## Operations -/

/-- The method `Tuple` (lines 30 to 32). -/
def PipeTransport.Tuple (t : PipeTransport) : TransportTuple :=
  t.data.Tuple

/-- What a call of `Connect` leaves behind: the transport, the effects and the
returned `err` (`none` is Go's nil). -/
structure ConnectResult where
  transport : PipeTransport
  effects : List Effect
  err : Option GoError

/-- The method `Connect` (lines 42 to 48). -/
def PipeTransport.Connect (t : PipeTransport) (params : transportConnectParams) :
    ConnectResult :=
  -- line 45
  let resp := t.channel.Request "transport.connect" t.internal (Any.connectParams params)
  -- line 47: decode into t.data, return the error of the decoding
  let decoded := resp.UnmarshalData t.data
  { transport := { t with data := decoded.1 },
    effects := [Effect.request "transport.connect" t.internal (Any.connectParams params)],
    err := decoded.2 }

/-- How a call of `Consume` ends: it returns `(consumer, err)`, or a run-time
panic unwinds it. -/
inductive Outcome where
  | returned (consumer : Option Consumer) (err : Option GoError)
  | panicked (message : String)

/-- What a call of `Consume` leaves behind. -/
structure ConsumeResult where
  transport : PipeTransport
  effects : List Effect
  outcome : Outcome

/-- The method `Consume` (lines 73 to 143). `newV4` is the value of
`uuid.NewV4().String()` at line 95. -/
def PipeTransport.Consume (env : Collaborators) (newV4 : String) (t : PipeTransport)
    (params : transportConsumeParams) : ConsumeResult :=
  -- line 76
  let producerId := params.ProducerId
  let appData := params.AppData
  -- lines 78 to 80
  let appData := match appData with
    | Any.nil => Any.H []
    | a => a
  -- lines 81 to 84
  if env.isObject appData = false then
    { transport := t, effects := [],
      outcome := Outcome.returned none
        (some (NewTypeError "if given, appData must be an object")) }
  else
    -- line 86
    let producer := t.getProducerById producerId
    -- lines 88 to 90: err is assigned; there is no return, execution goes on
    let _err : Option GoError := match producer with
      | none => some (GoError.errorf
          ("Producer with id \"" ++ producerId ++ "\" not found"))
      | some _ => none
    -- line 92
    match Producer.ConsumableRtpParameters producer with
    | Except.error msg =>
      { transport := t, effects := [], outcome := Outcome.panicked msg }
    | Except.ok consumable =>
      let rtpParameters := env.GetPipeConsumerRtpParameters consumable
      -- lines 94 to 96: internal is a copy of t.internal
      let internal := { t.internal with ConsumerId := newV4, ProducerId := producerId }
      -- lines 98 to 103
      match Producer.Kind producer, Producer.ConsumableRtpParameters producer with
      | Except.error msg, _ =>
        { transport := t, effects := [], outcome := Outcome.panicked msg }
      | Except.ok _, Except.error msg =>
        { transport := t, effects := [], outcome := Outcome.panicked msg }
      | Except.ok kind, Except.ok consumable2 =>
        let reqData : H :=
          [("kind", Any.string kind),
           ("rtpParameters", Any.rtpParameters rtpParameters),
           ("type", Any.string "pipe"),
           ("consumableRtpEncodings", Any.encodings consumable2.Encodings)]
        -- line 105
        let resp := t.channel.Request "transport.consume" internal (Any.H reqData)
        let issued := [Effect.request "transport.consume" internal (Any.H reqData)]
        -- lines 107 to 113: status starts as the zero value; err is overwritten
        -- with the result of the decoding, whatever line 89 assigned
        let decoded := resp.UnmarshalStatus { Paused := false, ProducerPaused := false }
        let status := decoded.1
        let err := decoded.2
        match err with
        | some e =>
          { transport := t, effects := issued, outcome := Outcome.returned none (some e) }
        | none =>
          -- lines 115 to 119
          match Producer.Kind producer with
          | Except.error msg =>
            { transport := t, effects := issued, outcome := Outcome.panicked msg }
          | Except.ok kind2 =>
            let data : consumerData :=
              { Kind := kind2, RtpParameters := rtpParameters, Type_ := "pipe" }
            -- lines 121 to 129
            let created := NewConsumer internal data t.channel appData
              status.Paused status.ProducerPaused none
            -- lines 132 to 137: the two listeners are subscribed on the object the
            -- registry entry of line 131 points to, so the entry sees them
            let consumer := (created.On "@close" (Handler.deleteConsumer created.Id)).On
              "@producerclose" (Handler.deleteConsumer created.Id)
            -- line 131
            let consumers := t.consumers.store created.Id consumer
            -- line 140, then line 142
            { transport := { t with consumers := consumers },
              effects := issued ++
                [Effect.store created.Id,
                 Effect.on created.Id "@close",
                 Effect.on created.Id "@producerclose",
                 Effect.safeEmit "newconsumer" consumer],
              outcome := Outcome.returned (some consumer) err }

/-- Running a listener body on the transport it closes over. -/
def Handler.run (h : Handler) (t : PipeTransport) : PipeTransport :=
  match h with
  | Handler.deleteConsumer id => { t with consumers := t.consumers.delete id }

/-- Modelled from the spec: firing an event of a consumer's event hub, declared
outside pipe_transport.go: every listener subscribed under that name runs, in
subscription order; listeners of other names do not run. -/
def Consumer.fire (c : Consumer) (event : String) (t : PipeTransport) : PipeTransport :=
  (c.listeners.filter (fun l => l.1 == event)).foldl (fun s l => l.2.run s) t

/-! ## Names for the parts of a `Consume` call -/

/-- The `appData` after lines 78 to 80. -/
def appDataOrEmpty (appData : Any) : Any :=
  match appData with
  | Any.nil => Any.H []
  | a => a

/-- The identifiers sent with `transport.consume` (lines 94 to 96). -/
def consumeInternal (t : PipeTransport) (newV4 producerId : String) : internalData :=
  { t.internal with ConsumerId := newV4, ProducerId := producerId }

/-- The payload sent with `transport.consume` (lines 98 to 103). -/
def consumeReqData (env : Collaborators) (p : Producer) : H :=
  [("kind", Any.string p.kind),
   ("rtpParameters",
     Any.rtpParameters (env.GetPipeConsumerRtpParameters p.consumableRtpParameters)),
   ("type", Any.string "pipe"),
   ("consumableRtpEncodings", Any.encodings p.consumableRtpParameters.Encodings)]

/-- The `status` decoded from a successful response (lines 107 to 111): the
zero value overwritten by the flags the response carries. -/
def statusOf (d : ResponseData) : consumeStatus :=
  { Paused := d.paused.getD false, ProducerPaused := d.producerPaused.getD false }

/-- The consumer built at lines 115 to 137 from a decoded `status`. -/
def pipeConsumer (env : Collaborators) (newV4 : String) (t : PipeTransport)
    (params : transportConsumeParams) (p : Producer) (status : consumeStatus) : Consumer :=
  { internal := consumeInternal t newV4 params.ProducerId,
    data := { Kind := p.kind,
              RtpParameters := env.GetPipeConsumerRtpParameters p.consumableRtpParameters,
              Type_ := "pipe" },
    channel := t.channel,
    appData := appDataOrEmpty params.AppData,
    paused := status.Paused,
    producerPaused := status.ProducerPaused,
    score := none,
    listeners := [("@close", Handler.deleteConsumer newV4),
                  ("@producerclose", Handler.deleteConsumer newV4)] }

/-! ## Concrete inputs -/

/-- A choice of the helpers: a mapping is an `H`; the pipe transform keeps the
codecs and the first encoding. -/
def sampleEnv : Collaborators :=
  { isObject := fun a => match a with
      | Any.H _ => true
      | _ => false,
    GetPipeConsumerRtpParameters := fun p => { p with Encodings := p.Encodings.take 1 } }

/-- A fake Channel that accepts every request: it answers `transport.connect`
with a tuple and anything else with the flags paused = false,
producerPaused = true. -/
def acceptingChannel : Channel :=
  { Request := fun method _ _ =>
      if method = "transport.connect" then
        Response.success { tuple := some { Ip := "10.0.0.5", Port := 40000 } }
      else
        Response.success { paused := some false, producerPaused := some true } }

/-- The remote error of `rejectingChannel`. -/
def sampleRemoteError : GoError :=
  GoError.channel "RemoteRequestError" "request rejected by the worker"

/-- A fake Channel that rejects every request with a remote error. -/
def rejectingChannel : Channel :=
  { Request := fun _ _ _ => Response.failure sampleRemoteError }

/-- A video producer with two encodings. -/
def sampleProducer : Producer :=
  { kind := "video",
    consumableRtpParameters :=
      { Codecs := [{ MimeType := "video/VP8", PayloadType := 101 }],
        Encodings := [{ Ssrc := 1111 }, { Ssrc := 2222 }] } }

/-- A pipe transport on `channel` with `sampleProducer` registered as "p1" and
no consumer. -/
def sampleTransport (channel : Channel) : PipeTransport :=
  { internal := { RouterId := "r1", TransportId := "t1", ProducerId := "", ConsumerId := "" },
    channel := channel,
    producers := fun k => if k = "p1" then some sampleProducer else none,
    consumers := fun _ => none,
    data := { Tuple := { Ip := "127.0.0.1", Port := 1 } } }

/-- The consumer `sampleTransport acceptingChannel` creates for "p1" under the
generated id "c1". -/
def sampleConsumer : Consumer :=
  pipeConsumer sampleEnv "c1" (sampleTransport acceptingChannel)
    { ProducerId := "p1", AppData := Any.nil } sampleProducer
    { Paused := false, ProducerPaused := true }

/-- A fake Channel that accepts every request and reports the flags
paused = true, producerPaused = false. -/
def pausingChannel : Channel :=
  { Request := fun _ _ _ =>
      Response.success { paused := some true, producerPaused := some false } }

/-- The consumer `sampleTransport pausingChannel` creates for "p1" under the
generated id "c2" with a non-empty appData. -/
def otherConsumer : Consumer :=
  pipeConsumer sampleEnv "c2" (sampleTransport pausingChannel)
    { ProducerId := "p1", AppData := Any.H [("tag", Any.string "relay")] } sampleProducer
    { Paused := true, ProducerPaused := false }

/-! ## Lemmas on registries, listeners and the shapes of `Consume` -/

theorem appDataOrEmpty_of_ne_nil {a : Any} (h : a ≠ Any.nil) : appDataOrEmpty a = a := by
  cases a <;> first | rfl | exact absurd rfl h

theorem Consume_shape_invalid (env : Collaborators) (newV4 : String) (t : PipeTransport)
    (params : transportConsumeParams)
    (hobj : env.isObject (appDataOrEmpty params.AppData) = false) :
    t.Consume env newV4 params =
      { transport := t, effects := [],
        outcome := Outcome.returned none
          (some (NewTypeError "if given, appData must be an object")) } := by
  unfold appDataOrEmpty at hobj
  unfold PipeTransport.Consume
  simp only [hobj, if_true]

theorem Consume_shape_unknown (env : Collaborators) (newV4 : String) (t : PipeTransport)
    (params : transportConsumeParams)
    (hobj : env.isObject (appDataOrEmpty params.AppData) = true)
    (hnone : t.producers params.ProducerId = none) :
    t.Consume env newV4 params =
      { transport := t, effects := [],
        outcome := Outcome.panicked "invalid memory address or nil pointer dereference" } := by
  unfold appDataOrEmpty at hobj
  unfold PipeTransport.Consume
  simp [hobj, PipeTransport.getProducerById, hnone, Producer.ConsumableRtpParameters]

theorem Consume_shape_failure (env : Collaborators) (newV4 : String) (t : PipeTransport)
    (params : transportConsumeParams) (p : Producer) (e : GoError)
    (hobj : env.isObject (appDataOrEmpty params.AppData) = true)
    (hsome : t.producers params.ProducerId = some p)
    (hresp : t.channel.Request "transport.consume"
      (consumeInternal t newV4 params.ProducerId) (Any.H (consumeReqData env p))
        = Response.failure e) :
    t.Consume env newV4 params =
      { transport := t,
        effects := [Effect.request "transport.consume"
          (consumeInternal t newV4 params.ProducerId) (Any.H (consumeReqData env p))],
        outcome := Outcome.returned none (some e) } := by
  unfold appDataOrEmpty at hobj
  unfold consumeInternal consumeReqData at hresp
  unfold PipeTransport.Consume
  simp [hobj, PipeTransport.getProducerById, hsome, Producer.ConsumableRtpParameters,
    Producer.Kind, hresp, Response.UnmarshalStatus, consumeInternal, consumeReqData]

theorem Consume_shape_success (env : Collaborators) (newV4 : String) (t : PipeTransport)
    (params : transportConsumeParams) (p : Producer) (d : ResponseData)
    (hobj : env.isObject (appDataOrEmpty params.AppData) = true)
    (hsome : t.producers params.ProducerId = some p)
    (hresp : t.channel.Request "transport.consume"
      (consumeInternal t newV4 params.ProducerId) (Any.H (consumeReqData env p))
        = Response.success d) :
    t.Consume env newV4 params =
      { transport :=
          { t with
            consumers :=
              (t.consumers.store newV4 (pipeConsumer env newV4 t params p (statusOf d))) },
        effects :=
          [Effect.request "transport.consume"
            (consumeInternal t newV4 params.ProducerId) (Any.H (consumeReqData env p)),
           Effect.store newV4,
           Effect.on newV4 "@close",
           Effect.on newV4 "@producerclose",
           Effect.safeEmit "newconsumer" (pipeConsumer env newV4 t params p (statusOf d))],
        outcome := Outcome.returned
          (some (pipeConsumer env newV4 t params p (statusOf d))) none } := by
  unfold appDataOrEmpty at hobj
  unfold consumeInternal consumeReqData at hresp
  unfold PipeTransport.Consume
  simp [hobj, PipeTransport.getProducerById, hsome, Producer.ConsumableRtpParameters,
    Producer.Kind, hresp, Response.UnmarshalStatus, consumeInternal, consumeReqData,
    pipeConsumer, NewConsumer, Consumer.On, Consumer.Id, appDataOrEmpty, statusOf]

theorem Consume_cases (env : Collaborators) (newV4 : String) (t : PipeTransport)
    (params : transportConsumeParams) :
    env.isObject (appDataOrEmpty params.AppData) = false ∨
    (env.isObject (appDataOrEmpty params.AppData) = true ∧
      t.producers params.ProducerId = none) ∨
    (∃ p e, env.isObject (appDataOrEmpty params.AppData) = true ∧
      t.producers params.ProducerId = some p ∧
      t.channel.Request "transport.consume"
        (consumeInternal t newV4 params.ProducerId) (Any.H (consumeReqData env p))
          = Response.failure e) ∨
    (∃ p d, env.isObject (appDataOrEmpty params.AppData) = true ∧
      t.producers params.ProducerId = some p ∧
      t.channel.Request "transport.consume"
        (consumeInternal t newV4 params.ProducerId) (Any.H (consumeReqData env p))
          = Response.success d) := by
  cases hobj : env.isObject (appDataOrEmpty params.AppData) with
  | false => exact Or.inl rfl
  | true =>
    cases hp : t.producers params.ProducerId with
    | none => exact Or.inr (Or.inl ⟨rfl, rfl⟩)
    | some p =>
      cases hresp : t.channel.Request "transport.consume"
          (consumeInternal t newV4 params.ProducerId) (Any.H (consumeReqData env p)) with
      | failure e => exact Or.inr (Or.inr (Or.inl ⟨p, e, rfl, rfl, hresp⟩))
      | success d => exact Or.inr (Or.inr (Or.inr ⟨p, d, rfl, rfl, hresp⟩))

/-- A call that returns a consumer and a nil error went through the success
path: the producer was registered, the Channel accepted the request, and the
consumer is the one built from the decoded status. -/
theorem Consume_success_inv (env : Collaborators) (newV4 : String) (t : PipeTransport)
    (params : transportConsumeParams) (c : Consumer)
    (hout : (t.Consume env newV4 params).outcome = Outcome.returned (some c) none) :
    ∃ p d, env.isObject (appDataOrEmpty params.AppData) = true ∧
      t.producers params.ProducerId = some p ∧
      t.channel.Request "transport.consume"
        (consumeInternal t newV4 params.ProducerId) (Any.H (consumeReqData env p))
          = Response.success d ∧
      c = pipeConsumer env newV4 t params p (statusOf d) := by
  rcases Consume_cases env newV4 t params with h | ⟨h, hn⟩ | ⟨p, e, h, hp, hr⟩ | ⟨p, d, h, hp, hr⟩
  · rw [Consume_shape_invalid env newV4 t params h] at hout
    simp at hout
  · rw [Consume_shape_unknown env newV4 t params h hn] at hout
    simp at hout
  · rw [Consume_shape_failure env newV4 t params p e h hp hr] at hout
    simp at hout
  · rw [Consume_shape_success env newV4 t params p d h hp hr] at hout
    simp at hout
    exact ⟨p, d, h, hp, hr, hout.symm⟩

theorem Registry.delete_store_of_absent {α : Type} (m : Registry α) (key : String) (v : α)
    (h : m key = none) : (m.store key v).delete key = m := by
  funext k
  unfold Registry.delete Registry.store
  by_cases hk : k = key
  · simp [hk, h]
  · simp [hk]

theorem Registry.delete_delete {α : Type} (m : Registry α) (key : String) :
    (m.delete key).delete key = m.delete key := by
  funext k
  unfold Registry.delete
  by_cases hk : k = key <;> simp [hk]

theorem pipeConsumer_fire_close (env : Collaborators) (newV4 : String) (t : PipeTransport)
    (params : transportConsumeParams) (p : Producer) (st : consumeStatus) (s : PipeTransport) :
    (pipeConsumer env newV4 t params p st).fire "@close" s
      = { s with consumers := s.consumers.delete newV4 } := by
  simp [Consumer.fire, pipeConsumer, List.filter, Handler.run]

theorem pipeConsumer_fire_producerclose (env : Collaborators) (newV4 : String)
    (t : PipeTransport) (params : transportConsumeParams) (p : Producer) (st : consumeStatus)
    (s : PipeTransport) :
    (pipeConsumer env newV4 t params p st).fire "@producerclose" s
      = { s with consumers := s.consumers.delete newV4 } := by
  simp [Consumer.fire, pipeConsumer, List.filter, Handler.run]

/-! ## The claims -/

/-- C1, evaluated at an unregistered producer id: on a transport whose producer
registry has only "p1", `Consume` for "missing" with absent appData does not
return a not-found error: line 89 assigns the error, nothing returns it, and
line 92 reads through the nil producer, so the call ends in a nil-dereference
panic (with no Channel request and the transport as it was). -/
theorem Consume_unknown_producer_panics :
    (sampleTransport acceptingChannel).producers "missing" = none ∧
    ((sampleTransport acceptingChannel).Consume sampleEnv "c1"
        { ProducerId := "missing", AppData := Any.nil }).outcome
      = Outcome.panicked "invalid memory address or nil pointer dereference" ∧
    (∀ err, ((sampleTransport acceptingChannel).Consume sampleEnv "c1"
        { ProducerId := "missing", AppData := Any.nil }).outcome
      ≠ Outcome.returned none (some err)) ∧
    ((sampleTransport acceptingChannel).Consume sampleEnv "c1"
        { ProducerId := "missing", AppData := Any.nil }).effects = [] := by
  have hshape := Consume_shape_unknown sampleEnv "c1" (sampleTransport acceptingChannel)
    { ProducerId := "missing", AppData := Any.nil } rfl (by decide)
  refine ⟨by decide, ?_, ?_, ?_⟩
  · rw [hshape]
  · intro err
    rw [hshape]
    simp
  · rw [hshape]

/-- C2: when appData is present (not nil) and `isObject` rejects it, `Consume`
returns a nil consumer and the TypeError built at line 82, issues no Channel
request (it has no effect at all) and returns the transport as it was; nothing
is assumed about the producer id. -/
theorem Consume_rejects_non_mapping_appData (env : Collaborators) (newV4 : String)
    (t : PipeTransport) (params : transportConsumeParams)
    (hpresent : params.AppData ≠ Any.nil)
    (hnot : env.isObject params.AppData = false) :
    (t.Consume env newV4 params).outcome
      = Outcome.returned none (some (GoError.typeError "if given, appData must be an object")) ∧
    requests (t.Consume env newV4 params).effects = [] ∧
    (t.Consume env newV4 params).effects = [] ∧
    (t.Consume env newV4 params).transport = t := by
  have hobj : env.isObject (appDataOrEmpty params.AppData) = false := by
    rw [appDataOrEmpty_of_ne_nil hpresent]
    exact hnot
  rw [Consume_shape_invalid env newV4 t params hobj]
  exact ⟨rfl, rfl, rfl, rfl⟩

/-- Witness of C2: appData is the string "x"; once with the registered producer
id "p1" and once with an unregistered one. -/
theorem Consume_rejects_non_mapping_appData_witness :
    (((sampleTransport acceptingChannel).Consume sampleEnv "c1"
        { ProducerId := "p1", AppData := Any.string "x" }).outcome
      = Outcome.returned none (some (GoError.typeError "if given, appData must be an object")) ∧
     requests ((sampleTransport acceptingChannel).Consume sampleEnv "c1"
        { ProducerId := "p1", AppData := Any.string "x" }).effects = [] ∧
     ((sampleTransport acceptingChannel).Consume sampleEnv "c1"
        { ProducerId := "p1", AppData := Any.string "x" }).effects = [] ∧
     ((sampleTransport acceptingChannel).Consume sampleEnv "c1"
        { ProducerId := "p1", AppData := Any.string "x" }).transport
      = sampleTransport acceptingChannel) ∧
    (((sampleTransport acceptingChannel).Consume sampleEnv "c1"
        { ProducerId := "missing", AppData := Any.string "x" }).outcome
      = Outcome.returned none (some (GoError.typeError "if given, appData must be an object"))) :=
  ⟨Consume_rejects_non_mapping_appData sampleEnv "c1" (sampleTransport acceptingChannel)
      { ProducerId := "p1", AppData := Any.string "x" } (by simp) rfl,
   (Consume_rejects_non_mapping_appData sampleEnv "c1" (sampleTransport acceptingChannel)
      { ProducerId := "missing", AppData := Any.string "x" } (by simp) rfl).1⟩

/-- C3: with a registered producer and appData that passes the check, if the
Channel answers the `transport.consume` request with the error `e`, `Consume`
returns a nil consumer and exactly `e`; the transport (its consumer registry
included) is the one before the call; nothing was stored, no listener was
subscribed and nothing was emitted. -/
theorem Consume_propagates_channel_error (env : Collaborators) (newV4 : String)
    (t : PipeTransport) (params : transportConsumeParams) (p : Producer) (e : GoError)
    (hobj : env.isObject (appDataOrEmpty params.AppData) = true)
    (hsome : t.getProducerById params.ProducerId = some p)
    (hresp : t.channel.Request "transport.consume"
      { t.internal with ConsumerId := newV4, ProducerId := params.ProducerId }
      (Any.H (consumeReqData env p)) = Response.failure e) :
    (t.Consume env newV4 params).outcome = Outcome.returned none (some e) ∧
    (t.Consume env newV4 params).transport = t ∧
    (t.Consume env newV4 params).transport.consumers = t.consumers ∧
    subscribed (t.Consume env newV4 params).effects = [] ∧
    emitted (t.Consume env newV4 params).effects = [] ∧
    Effect.store newV4 ∉ (t.Consume env newV4 params).effects := by
  rw [Consume_shape_failure env newV4 t params p e hobj hsome hresp]
  refine ⟨rfl, rfl, rfl, rfl, rfl, ?_⟩
  simp

/-- Witness of C3: the rejecting Channel, producer "p1", absent appData. -/
theorem Consume_propagates_channel_error_witness :
    ((sampleTransport rejectingChannel).Consume sampleEnv "c1"
        { ProducerId := "p1", AppData := Any.nil }).outcome
      = Outcome.returned none (some sampleRemoteError) ∧
    ((sampleTransport rejectingChannel).Consume sampleEnv "c1"
        { ProducerId := "p1", AppData := Any.nil }).transport
      = sampleTransport rejectingChannel :=
  have h := Consume_propagates_channel_error sampleEnv "c1" (sampleTransport rejectingChannel)
    { ProducerId := "p1", AppData := Any.nil } sampleProducer sampleRemoteError rfl
    (by decide) rfl
  ⟨h.1, h.2.1⟩

/-- C4: if the Channel answers `transport.connect` with a successful response
that carries the tuple `v`, `Connect` returns nil and `Tuple()` is `v`
afterwards; if it answers with the error `e`, `Connect` returns `e` and the
transport, so also `Tuple()`, is as before the call. Either way exactly one
request, `transport.connect` on the transport's internal identifiers, was
issued. -/
theorem Connect_updates_tuple (t : PipeTransport) (params : transportConnectParams) :
    (∀ d v, t.channel.Request "transport.connect" t.internal (Any.connectParams params)
        = Response.success d → d.tuple = some v →
      (t.Connect params).err = none ∧ (t.Connect params).transport.Tuple = v) ∧
    (∀ e, t.channel.Request "transport.connect" t.internal (Any.connectParams params)
        = Response.failure e →
      (t.Connect params).err = some e ∧
      (t.Connect params).transport.Tuple = t.Tuple ∧
      (t.Connect params).transport = t) ∧
    requests (t.Connect params).effects
      = [("transport.connect", t.internal, Any.connectParams params)] := by
  refine ⟨?_, ?_, rfl⟩
  · intro d v hresp hv
    simp [PipeTransport.Connect, PipeTransport.Tuple, hresp, Response.UnmarshalData, hv]
  · intro e hresp
    simp [PipeTransport.Connect, PipeTransport.Tuple, hresp, Response.UnmarshalData]

/-- Witness of C4: the accepting Channel answers with ip 10.0.0.5 and port
40000; the rejecting Channel leaves the tuple of construction. -/
theorem Connect_updates_tuple_witness :
    (((sampleTransport acceptingChannel).Connect { Ip := "10.0.0.5", Port := 40000 }).err = none ∧
     ((sampleTransport acceptingChannel).Connect { Ip := "10.0.0.5", Port := 40000 }).transport.Tuple
      = { Ip := "10.0.0.5", Port := 40000 }) ∧
    (((sampleTransport rejectingChannel).Connect { Ip := "10.0.0.5", Port := 40000 }).err
      = some sampleRemoteError ∧
     ((sampleTransport rejectingChannel).Connect { Ip := "10.0.0.5", Port := 40000 }).transport.Tuple
      = { Ip := "127.0.0.1", Port := 1 }) :=
  ⟨(Connect_updates_tuple (sampleTransport acceptingChannel)
      { Ip := "10.0.0.5", Port := 40000 }).1 _ _ rfl rfl,
   ((Connect_updates_tuple (sampleTransport rejectingChannel)
      { Ip := "10.0.0.5", Port := 40000 }).2.1 _ rfl).1,
   ((Connect_updates_tuple (sampleTransport rejectingChannel)
      { Ip := "10.0.0.5", Port := 40000 }).2.1 _ rfl).2.1⟩

/-- C5: with a registered producer `p`, appData that passes the check and a
successful Channel response reporting paused = a and producerPaused = b,
`Consume` returns a nil error and a consumer whose kind is `p.Kind()`, whose
type is "pipe", whose paused flag is `a` and producerPaused flag is `b`, and
the transport's consumer registry maps the consumer's id to that consumer. -/
theorem Consume_success_consumer (env : Collaborators) (newV4 : String)
    (t : PipeTransport) (params : transportConsumeParams) (p : Producer) (d : ResponseData)
    (a b : Bool)
    (hobj : env.isObject (appDataOrEmpty params.AppData) = true)
    (hsome : t.getProducerById params.ProducerId = some p)
    (hresp : t.channel.Request "transport.consume"
      { t.internal with ConsumerId := newV4, ProducerId := params.ProducerId }
      (Any.H (consumeReqData env p)) = Response.success d)
    (ha : d.paused = some a) (hb : d.producerPaused = some b) :
    ∃ c, (t.Consume env newV4 params).outcome = Outcome.returned (some c) none ∧
      Producer.Kind (some p) = Except.ok c.Kind ∧
      c.Type_ = "pipe" ∧
      c.Paused = a ∧
      c.ProducerPaused = b ∧
      (t.Consume env newV4 params).transport.consumers c.Id = some c := by
  refine ⟨pipeConsumer env newV4 t params p (statusOf d), ?_⟩
  rw [Consume_shape_success env newV4 t params p d hobj hsome hresp]
  simp [Producer.Kind, Consumer.Kind, Consumer.Type_, Consumer.Paused,
    Consumer.ProducerPaused, Consumer.Id, pipeConsumer, statusOf, ha, hb, Registry.store,
    consumeInternal]

/-- Witness of C5: the producer "p1" of kind "video"; the Channel reports
paused = false, producerPaused = true. -/
theorem Consume_success_consumer_witness :
    ∃ c, ((sampleTransport acceptingChannel).Consume sampleEnv "c1"
        { ProducerId := "p1", AppData := Any.nil }).outcome = Outcome.returned (some c) none ∧
      Producer.Kind (some sampleProducer) = Except.ok c.Kind ∧
      c.Type_ = "pipe" ∧
      c.Paused = false ∧
      c.ProducerPaused = true ∧
      ((sampleTransport acceptingChannel).Consume sampleEnv "c1"
        { ProducerId := "p1", AppData := Any.nil }).transport.consumers c.Id = some c :=
  Consume_success_consumer sampleEnv "c1" (sampleTransport acceptingChannel)
    { ProducerId := "p1", AppData := Any.nil } sampleProducer
    { paused := some false, producerPaused := some true } false true rfl (by decide) rfl rfl rfl

/-- C6: after a successful `Consume` that returns the consumer `c` under an id
that was not a key of the registry, the registry is the prior one with the
single entry `c.Id() ↦ c` added (every other key is as before); firing the
"@close" event of `c` then deletes exactly the entry `c.Id()` and leaves
every other entry (and the rest of the transport) untouched, which gives back
the registry before the call. -/
theorem Consume_registers_one_entry (env : Collaborators) (newV4 : String)
    (t : PipeTransport) (params : transportConsumeParams) (c : Consumer)
    (hout : (t.Consume env newV4 params).outcome = Outcome.returned (some c) none)
    (hfresh : t.consumers c.Id = none) :
    (t.Consume env newV4 params).transport.consumers = t.consumers.store c.Id c ∧
    (t.Consume env newV4 params).transport.consumers c.Id = some c ∧
    (∀ k, k ≠ c.Id → (t.Consume env newV4 params).transport.consumers k = t.consumers k) ∧
    (c.fire "@close" (t.Consume env newV4 params).transport).consumers c.Id = none ∧
    (∀ k, k ≠ c.Id →
      (c.fire "@close" (t.Consume env newV4 params).transport).consumers k
        = (t.Consume env newV4 params).transport.consumers k) ∧
    (c.fire "@close" (t.Consume env newV4 params).transport).consumers = t.consumers ∧
    c.fire "@close" (t.Consume env newV4 params).transport = t := by
  obtain ⟨p, d, hobj, hp, hresp, hc⟩ := Consume_success_inv env newV4 t params c hout
  have hid : c.Id = newV4 := by
    rw [hc]
    rfl
  rw [hid] at hfresh ⊢
  rw [Consume_shape_success env newV4 t params p d hobj hp hresp, hc,
    pipeConsumer_fire_close]
  refine ⟨rfl, ?_, ?_, ?_, ?_, ?_, ?_⟩
  · simp [Registry.store]
  · intro k hk
    simp [Registry.store, hk]
  · simp [Registry.delete]
  · intro k hk
    simp [Registry.delete, hk]
  · exact Registry.delete_store_of_absent t.consumers newV4 _ hfresh
  · simp only [Registry.delete_store_of_absent t.consumers newV4 _ hfresh]

/-- Witness of C6: the sample transport has no consumer, so "c1" is fresh. -/
theorem Consume_registers_one_entry_witness :
    ((sampleTransport acceptingChannel).Consume sampleEnv "c1"
        { ProducerId := "p1", AppData := Any.nil }).transport.consumers
      = (sampleTransport acceptingChannel).consumers.store "c1" sampleConsumer ∧
    sampleConsumer.fire "@close" ((sampleTransport acceptingChannel).Consume sampleEnv "c1"
        { ProducerId := "p1", AppData := Any.nil }).transport
      = sampleTransport acceptingChannel :=
  have h := Consume_registers_one_entry sampleEnv "c1" (sampleTransport acceptingChannel)
    { ProducerId := "p1", AppData := Any.nil } sampleConsumer
    (by
      rw [Consume_shape_success sampleEnv "c1" (sampleTransport acceptingChannel)
        { ProducerId := "p1", AppData := Any.nil } sampleProducer
        { paused := some false, producerPaused := some true } rfl (by decide) rfl]
      rfl)
    rfl
  ⟨h.1, h.2.2.2.2.2.2⟩

/-- C7: for the consumer `c` returned by a successful `Consume`, and any state
`s` of the transport: firing "@producerclose" gives the same transport (so the
same registry) as firing "@close"; firing both, in either order, gives that
same transport again; and the registry it gives is the one with the key
`c.Id()` deleted. Firing is a total function: no step of it can fail. -/
theorem Consume_close_handlers_commute (env : Collaborators) (newV4 : String)
    (t : PipeTransport) (params : transportConsumeParams) (c : Consumer)
    (hout : (t.Consume env newV4 params).outcome = Outcome.returned (some c) none)
    (s : PipeTransport) :
    c.fire "@producerclose" s = c.fire "@close" s ∧
    c.fire "@producerclose" (c.fire "@close" s) = c.fire "@close" s ∧
    c.fire "@close" (c.fire "@producerclose" s) = c.fire "@close" s ∧
    c.fire "@close" (c.fire "@close" s) = c.fire "@close" s ∧
    (c.fire "@close" s).consumers = s.consumers.delete c.Id := by
  obtain ⟨p, d, _, _, _, hc⟩ := Consume_success_inv env newV4 t params c hout
  have hid : c.Id = newV4 := by
    rw [hc]
    rfl
  rw [hid, hc]
  simp only [pipeConsumer_fire_close, pipeConsumer_fire_producerclose,
    Registry.delete_delete, and_self]

/-- Witness of C7: the sample consumer, fired on the transport that `Consume`
returned. -/
theorem Consume_close_handlers_commute_witness :
    sampleConsumer.fire "@producerclose"
        (sampleConsumer.fire "@close" ((sampleTransport acceptingChannel).Consume sampleEnv "c1"
          { ProducerId := "p1", AppData := Any.nil }).transport)
      = sampleConsumer.fire "@close" ((sampleTransport acceptingChannel).Consume sampleEnv "c1"
          { ProducerId := "p1", AppData := Any.nil }).transport ∧
    sampleConsumer.fire "@close"
        (sampleConsumer.fire "@producerclose"
          ((sampleTransport acceptingChannel).Consume sampleEnv "c1"
            { ProducerId := "p1", AppData := Any.nil }).transport)
      = sampleConsumer.fire "@close" ((sampleTransport acceptingChannel).Consume sampleEnv "c1"
          { ProducerId := "p1", AppData := Any.nil }).transport :=
  have h := Consume_close_handlers_commute sampleEnv "c1" (sampleTransport acceptingChannel)
    { ProducerId := "p1", AppData := Any.nil } sampleConsumer
    (by
      rw [Consume_shape_success sampleEnv "c1" (sampleTransport acceptingChannel)
        { ProducerId := "p1", AppData := Any.nil } sampleProducer
        { paused := some false, producerPaused := some true } rfl (by decide) rfl]
      rfl)
    ((sampleTransport acceptingChannel).Consume sampleEnv "c1"
      { ProducerId := "p1", AppData := Any.nil }).transport
  ⟨h.2.1, h.2.2.1⟩

/-- C8: with a registered producer `p` and appData that passes the check,
`Consume` issues exactly one Channel request: its method is
"transport.consume"; its target is the transport's internal identifiers with
the consumer id set to the generated id and the producer id set to the
requested one; its payload is the mapping with exactly the keys kind,
rtpParameters, type, consumableRtpEncodings, holding `p.Kind()`,
`GetPipeConsumerRtpParameters(p.ConsumableRtpParameters())`, "pipe" and
`p.ConsumableRtpParameters().Encodings`. A consumer the call returns reports
the generated id. -/
theorem Consume_issues_one_request (env : Collaborators) (newV4 : String)
    (t : PipeTransport) (params : transportConsumeParams) (p : Producer)
    (hobj : env.isObject (appDataOrEmpty params.AppData) = true)
    (hsome : t.getProducerById params.ProducerId = some p) :
    requests (t.Consume env newV4 params).effects =
      [("transport.consume",
        { RouterId := t.internal.RouterId, TransportId := t.internal.TransportId,
          ProducerId := params.ProducerId, ConsumerId := newV4 },
        Any.H
          [("kind", Any.string p.kind),
           ("rtpParameters",
             Any.rtpParameters (env.GetPipeConsumerRtpParameters p.consumableRtpParameters)),
           ("type", Any.string "pipe"),
           ("consumableRtpEncodings", Any.encodings p.consumableRtpParameters.Encodings)])] ∧
    Producer.Kind (some p) = Except.ok p.kind ∧
    Producer.ConsumableRtpParameters (some p) = Except.ok p.consumableRtpParameters ∧
    (∀ c err, (t.Consume env newV4 params).outcome = Outcome.returned (some c) err →
      c.Id = newV4) := by
  refine ⟨?_, rfl, rfl, ?_⟩
  · cases hresp : t.channel.Request "transport.consume"
        (consumeInternal t newV4 params.ProducerId) (Any.H (consumeReqData env p)) with
    | failure e =>
      rw [Consume_shape_failure env newV4 t params p e hobj hsome hresp]
      rfl
    | success d =>
      rw [Consume_shape_success env newV4 t params p d hobj hsome hresp]
      rfl
  · intro c err hout
    cases hresp : t.channel.Request "transport.consume"
        (consumeInternal t newV4 params.ProducerId) (Any.H (consumeReqData env p)) with
    | failure e =>
      rw [Consume_shape_failure env newV4 t params p e hobj hsome hresp] at hout
      simp at hout
    | success d =>
      rw [Consume_shape_success env newV4 t params p d hobj hsome hresp] at hout
      simp at hout
      rw [← hout.1]
      rfl

/-- Witness of C8: the request the sample transport issues for "p1" under the
generated id "c1". -/
theorem Consume_issues_one_request_witness :
    requests ((sampleTransport acceptingChannel).Consume sampleEnv "c1"
        { ProducerId := "p1", AppData := Any.nil }).effects =
      [("transport.consume",
        { RouterId := "r1", TransportId := "t1", ProducerId := "p1", ConsumerId := "c1" },
        Any.H
          [("kind", Any.string "video"),
           ("rtpParameters", Any.rtpParameters
             { Codecs := [{ MimeType := "video/VP8", PayloadType := 101 }],
               Encodings := [{ Ssrc := 1111 }] }),
           ("type", Any.string "pipe"),
           ("consumableRtpEncodings", Any.encodings [{ Ssrc := 1111 }, { Ssrc := 2222 }])])] :=
  (Consume_issues_one_request sampleEnv "c1" (sampleTransport acceptingChannel)
    { ProducerId := "p1", AppData := Any.nil } sampleProducer rfl (by decide)).1

/-- C9: two successful `Consume` calls (any transports, appData, generated ids
and Channel answers) against producers with the same consumable RTP
parameters return consumers with the same RTP parameters, namely
`GetPipeConsumerRtpParameters` of the consumable parameters; and in each call
the `rtpParameters` entry of every request payload is the RTP parameters of the
returned consumer. -/
theorem Consume_rtpParameters_deterministic (env : Collaborators) (id1 id2 : String)
    (t1 t2 : PipeTransport) (params1 params2 : transportConsumeParams) (p1 p2 : Producer)
    (c1 c2 : Consumer)
    (hp1 : t1.getProducerById params1.ProducerId = some p1)
    (hp2 : t2.getProducerById params2.ProducerId = some p2)
    (hsame : p1.consumableRtpParameters = p2.consumableRtpParameters)
    (hout1 : (t1.Consume env id1 params1).outcome = Outcome.returned (some c1) none)
    (hout2 : (t2.Consume env id2 params2).outcome = Outcome.returned (some c2) none) :
    c1.RtpParameters = c2.RtpParameters ∧
    c1.RtpParameters = env.GetPipeConsumerRtpParameters p1.consumableRtpParameters ∧
    (∀ m i h, (m, i, Any.H h) ∈ requests (t1.Consume env id1 params1).effects →
      H.get h "rtpParameters" = some (Any.rtpParameters c1.RtpParameters)) ∧
    (∀ m i h, (m, i, Any.H h) ∈ requests (t2.Consume env id2 params2).effects →
      H.get h "rtpParameters" = some (Any.rtpParameters c2.RtpParameters)) := by
  obtain ⟨q1, d1, hobj1, hq1, hresp1, hc1⟩ := Consume_success_inv env id1 t1 params1 c1 hout1
  obtain ⟨q2, d2, hobj2, hq2, hresp2, hc2⟩ := Consume_success_inv env id2 t2 params2 c2 hout2
  have e1 : q1 = p1 := Option.some.inj (hq1.symm.trans hp1)
  have e2 : q2 = p2 := Option.some.inj (hq2.symm.trans hp2)
  subst e1 e2
  have r1 : c1.RtpParameters = env.GetPipeConsumerRtpParameters q1.consumableRtpParameters := by
    rw [hc1]
    rfl
  have r2 : c2.RtpParameters = env.GetPipeConsumerRtpParameters q2.consumableRtpParameters := by
    rw [hc2]
    rfl
  refine ⟨by rw [r1, r2, hsame], r1, ?_, ?_⟩
  · intro m i h hmem
    rw [Consume_shape_success env id1 t1 params1 q1 d1 hobj1 hq1 hresp1] at hmem
    simp [requests] at hmem
    rw [hmem.2.2, r1]
    simp [consumeReqData, H.get, List.find?]
  · intro m i h hmem
    rw [Consume_shape_success env id2 t2 params2 q2 d2 hobj2 hq2 hresp2] at hmem
    simp [requests] at hmem
    rw [hmem.2.2, r2]
    simp [consumeReqData, H.get, List.find?]

/-- Witness of C9: two calls that differ in the Channel flags, the generated
id and the appData return the same RTP parameters. -/
theorem Consume_rtpParameters_deterministic_witness :
    sampleConsumer.RtpParameters = otherConsumer.RtpParameters ∧
    sampleConsumer.RtpParameters
      = { Codecs := [{ MimeType := "video/VP8", PayloadType := 101 }],
          Encodings := [{ Ssrc := 1111 }] } :=
  have h := Consume_rtpParameters_deterministic sampleEnv "c1" "c2"
    (sampleTransport acceptingChannel) (sampleTransport pausingChannel)
    { ProducerId := "p1", AppData := Any.nil }
    { ProducerId := "p1", AppData := Any.H [("tag", Any.string "relay")] }
    sampleProducer sampleProducer sampleConsumer otherConsumer
    (by decide) (by decide) rfl
    (by
      rw [Consume_shape_success sampleEnv "c1" (sampleTransport acceptingChannel)
        { ProducerId := "p1", AppData := Any.nil } sampleProducer
        { paused := some false, producerPaused := some true } rfl (by decide) rfl]
      rfl)
    (by
      rw [Consume_shape_success sampleEnv "c2" (sampleTransport pausingChannel)
        { ProducerId := "p1", AppData := Any.H [("tag", Any.string "relay")] } sampleProducer
        { paused := some true, producerPaused := some false } rfl (by decide) rfl]
      rfl)
  ⟨h.1, h.2.1⟩

/-- C10: a `Consume` call that succeeds (returns a consumer `c` and a nil
error) emits exactly one observer notification, "newconsumer" carrying `c`,
and emits it after the registry store of `c` (whose entry is in the returned
transport); a call that does not succeed (validation error, unknown producer,
Channel error) emits no notification. -/
theorem Consume_newconsumer_iff_success (env : Collaborators) (newV4 : String)
    (t : PipeTransport) (params : transportConsumeParams) :
    (∀ c, (t.Consume env newV4 params).outcome = Outcome.returned (some c) none →
      emitted (t.Consume env newV4 params).effects = [("newconsumer", c)] ∧
      (t.Consume env newV4 params).transport.consumers c.Id = some c ∧
      ∃ before after,
        (t.Consume env newV4 params).effects = before ++ Effect.store c.Id :: after ∧
        emitted before = [] ∧
        emitted after = [("newconsumer", c)]) ∧
    ((∀ c, (t.Consume env newV4 params).outcome ≠ Outcome.returned (some c) none) →
      emitted (t.Consume env newV4 params).effects = []) := by
  constructor
  · intro c hout
    obtain ⟨p, d, hobj, hp, hresp, hc⟩ := Consume_success_inv env newV4 t params c hout
    have hid : c.Id = newV4 := by
      rw [hc]
      rfl
    rw [hid, Consume_shape_success env newV4 t params p d hobj hp hresp, ← hc]
    refine ⟨rfl, ?_, [Effect.request "transport.consume"
      (consumeInternal t newV4 params.ProducerId) (Any.H (consumeReqData env p))],
      [Effect.on newV4 "@close", Effect.on newV4 "@producerclose",
       Effect.safeEmit "newconsumer" c], rfl, rfl, rfl⟩
    simp [Registry.store]
  · intro hfail
    rcases Consume_cases env newV4 t params with
      h | ⟨h, hn⟩ | ⟨p, e, h, hp, hr⟩ | ⟨p, d, h, hp, hr⟩
    · rw [Consume_shape_invalid env newV4 t params h]
      rfl
    · rw [Consume_shape_unknown env newV4 t params h hn]
      rfl
    · rw [Consume_shape_failure env newV4 t params p e h hp hr]
      rfl
    · exact absurd (by rw [Consume_shape_success env newV4 t params p d h hp hr])
        (hfail (pipeConsumer env newV4 t params p (statusOf d)))

/-- Witness of C10: the successful sample call emits "newconsumer" once; the
call on the rejecting Channel emits nothing. -/
theorem Consume_newconsumer_iff_success_witness :
    emitted ((sampleTransport acceptingChannel).Consume sampleEnv "c1"
        { ProducerId := "p1", AppData := Any.nil }).effects = [("newconsumer", sampleConsumer)] ∧
    emitted ((sampleTransport rejectingChannel).Consume sampleEnv "c1"
        { ProducerId := "p1", AppData := Any.nil }).effects = [] :=
  ⟨((Consume_newconsumer_iff_success sampleEnv "c1" (sampleTransport acceptingChannel)
      { ProducerId := "p1", AppData := Any.nil }).1 sampleConsumer
      (by
        rw [Consume_shape_success sampleEnv "c1" (sampleTransport acceptingChannel)
          { ProducerId := "p1", AppData := Any.nil } sampleProducer
          { paused := some false, producerPaused := some true } rfl (by decide) rfl]
        rfl)).1,
   (Consume_newconsumer_iff_success sampleEnv "c1" (sampleTransport rejectingChannel)
      { ProducerId := "p1", AppData := Any.nil }).2
      (by
        intro c
        rw [Consume_shape_failure sampleEnv "c1" (sampleTransport rejectingChannel)
          { ProducerId := "p1", AppData := Any.nil } sampleProducer sampleRemoteError rfl
          (by decide) rfl]
        simp)⟩

end Mediasoup
